import Mathlib

/-!
Shallow embedding of the resilient transcript-acquisition core of
obsidian-ai-tools (src/obsidian_ai_tools/{transcript_validation, cache,
circuit_breaker, youtube}.py) and proofs about the behaviour claimed in the
natural-language specification.

Conventions of the embedding:
* Python strings are Lean `String`s (ASCII content; `str.lower`, `str.strip`,
  `str.split` and the `\w`/`\s` regex classes are modelled for ASCII text).
* `datetime.now()` values are abstract integer timestamps (`Int`), and
  `timedelta` values are integers in the same unit; only differences and
  comparisons of times occur in the modelled code.
* Python floats appear only in exact-valued comparisons
  (`avg < 2.5`, `count > n * 0.1`, `ratio >= 0.3`); they are modelled by the
  corresponding exact rational comparisons.
* Filesystem state (one JSON file per cache key, one breaker state file) is
  modelled as explicit values threaded through the functions; a stored file
  that fails to parse is `Except.error ()`.
-/

set_option autoImplicit false
set_option linter.unusedVariables false

namespace ObsidianAITools

/-! ### Python string primitives (ASCII) -/

/-- Python whitespace characters recognised by `str.split` / `str.strip` and
by the regex class `\s` (for ASCII text). -/
def isPySpace (c : Char) : Bool :=
  c = ' ' || c = '\t' || c = '\n' || c = '\r' || c = '\x0b' || c = '\x0c'

/-- The regex class `\w` (for ASCII text): letters, digits, underscore. -/
def isWordChar (c : Char) : Bool :=
  c.isAlphanum || c = '_'

/-- Python `str.lower` on ASCII text. -/
def pyLower (s : String) : String :=
  String.mk (s.data.map Char.toLower)

/-- Python `str.strip` (no argument): drop leading and trailing whitespace. -/
def pyStrip (s : String) : String :=
  String.mk (((s.data.dropWhile isPySpace).reverse.dropWhile isPySpace).reverse)

/-- Worker for `pySplit`: the pending word is accumulated reversed. -/
def pySplitAux : List Char → List Char → List (List Char)
  | [], acc => if acc.isEmpty then [] else [acc.reverse]
  | c :: cs, acc =>
    if isPySpace c then
      if acc.isEmpty then pySplitAux cs [] else acc.reverse :: pySplitAux cs []
    else
      pySplitAux cs (c :: acc)

/-- Python `str.split` (no argument): maximal runs of non-whitespace
characters, with empty results discarded. -/
def pySplit (s : String) : List String :=
  (pySplitAux s.data []).map String.mk

/-- Character class used when scanning text the way the `re` module does for
the pattern `\b\w+\s+\w+\s+\w+\b`: word characters, whitespace, or other. -/
inductive CClass where
  | word
  | space
  | other
  deriving DecidableEq, Repr

def classOf (c : Char) : CClass :=
  if isWordChar c then .word else if isPySpace c then .space else .other

/-- Group a character list into maximal runs of characters of one class. -/
def charRuns : List Char → List (CClass × List Char)
  | [] => []
  | c :: cs =>
    match charRuns cs with
    | [] => [(classOf c, [c])]
    | (k, r) :: rest =>
      if classOf c = k then (k, c :: r) :: rest else (classOf c, [c]) :: (k, r) :: rest

/-- `re.findall(r"\b\w+\s+\w+\s+\w+\b", text)`.

A match must start at the start of a maximal word run (the `\b` anchor), the
greedy `\w+`/`\s+` pieces each consume a full maximal run, and `re.findall`
continues scanning after the end of each match, so the matches are the
leftmost NON-overlapping word-space-word-space-word run groups. -/
def tripleScan : List (CClass × List Char) → List String
  | (.word, a) :: (.space, s1) :: (.word, b) :: (.space, s2) :: (.word, c) :: rest =>
    String.mk (a ++ s1 ++ b ++ s2 ++ c) :: tripleScan rest
  | _ :: rest => tripleScan rest
  | [] => []

/-- The 3-word phrases extracted by `validate_transcript_quality`:
`re.findall(r"\b\w+\s+\w+\s+\w+\b", transcript.lower())`. -/
def codePhrases (transcript : String) : List String :=
  tripleScan (charRuns (pyLower transcript).data)

/-- The distinct elements of a list, in order of first occurrence — the key
order of a Python `collections.Counter` built from the list. -/
def firstOccs : List String → List String
  | [] => []
  | x :: xs => x :: (firstOccs xs).filter (fun y => y ≠ x)

/-- Pick the pair with the largest second component; on ties the earlier pair
wins (Python `Counter.most_common` is stable). -/
def maxBySnd {α : Type} : List (α × Nat) → Option (α × Nat)
  | [] => none
  | p :: ps => some (ps.foldl (fun best q => if q.2 > best.2 then q else best) p)

/-- `Counter(l).most_common(1)[0]`: the (first-occurring) most frequent
element together with its multiplicity; `none` iff the list is empty. -/
def mostCommon1 (l : List String) : Option (String × Nat) :=
  maxBySnd ((firstOccs l).map (fun x => (x, l.count x)))

/-- The multiplicity of the most frequent element (0 for the empty list). -/
def maxCount (l : List String) : Nat :=
  ((firstOccs l).map (fun x => l.count x)).foldr max 0

/-- Python `needle in hay` substring test on character lists. -/
def listContainsSub (needle : List Char) : List Char → Bool
  | [] => needle.isEmpty
  | c :: cs => needle.isPrefixOf (c :: cs) || listContainsSub needle cs

/-- Python `needle in hay` substring test on strings. -/
def containsSub (hay needle : String) : Bool :=
  listContainsSub needle.data hay.data

/-! ### transcript_validation.py -/

/-- The three failure messages `validate_transcript_quality` can return, kept
structured (the Python function renders them as f-strings; the data carried
here is exactly the data interpolated into the message). -/
inductive QualityIssue where
  /-- "Transcript too short ({chars} chars, minimum {minLength})";
  `chars` is `len(transcript)` (unstripped). -/
  | tooShort (chars : Nat) (minLength : Nat)
  /-- "Transcript appears fragmented (avg word length: ...)"; carries the
  total word length and the word count whose quotient is the average. -/
  | fragmented (sumLen : Nat) (numWords : Nat)
  /-- "Excessive repetition detected: {phrase} appears {count} times". -/
  | excessiveRepetition (phrase : String) (count : Nat)
  deriving DecidableEq, Repr

/-- `validate_transcript_quality(transcript, video_title, min_length=100,
min_avg_word_length=2.5)` from transcript_validation.py.  The
`video_title` argument is unused by the Python function as well.
The float thresholds are fixed at their Python defaults and modelled by the
exact rational comparisons they denote, written cross-multiplied over ℕ:
`sum/len < 2.5` is `2*sum < 5*len` and `count > len(phrases)*0.1` is
`10*count > len(phrases)` (the float arithmetic is exact at these scales). -/
def validate_transcript_quality (transcript : String) (video_title : String)
    (min_length : Nat := 100) : Option QualityIssue :=
  if (pyStrip transcript).length < min_length then
    some (.tooShort transcript.length min_length)
  else
    let words := pySplit transcript
    if words.length ≠ 0 ∧
        2 * (words.map String.length).sum < 5 * words.length then
      some (.fragmented (words.map String.length).sum words.length)
    else
      let phrases := codePhrases transcript
      match mostCommon1 phrases with
      | none => none
      | some (ph, cnt) =>
        if 10 * cnt > phrases.length then
          some (.excessiveRepetition ph cnt)
        else
          none

/-- The stop-word set of `check_transcript_relevance`. -/
def stopWords : List String :=
  ["the", "a", "an", "and", "or", "but", "in", "on", "at", "to", "for", "of",
   "with", "vs", "big", "new"]

/-- `re.findall(r"\b\w+\b", s)`: the maximal word-character runs of `s`. -/
def wordRuns (s : String) : List String :=
  (charRuns s.data).filterMap (fun p => if p.1 = .word then some (String.mk p.2) else none)

/-- `check_transcript_relevance(transcript, video_title, threshold=0.3)` from
transcript_validation.py.  The title-word set is modelled as a duplicate-free
list; `word in transcript_lower` is a substring test; the float threshold is
fixed at its Python default 0.3, and `matches/n >= 0.3` is modelled by the
exact rational comparison it denotes, cross-multiplied: `10*matches >= 3*n`. -/
def check_transcript_relevance (transcript : String) (video_title : String) : Bool :=
  let title_words := firstOccs
    (((wordRuns video_title).filter
        (fun w => w.length > 2 ∧ pyLower w ∉ stopWords)).map pyLower)
  if title_words.isEmpty then
    true
  else
    let transcript_lower := pyLower transcript
    let numMatches := (title_words.filter (fun w => containsSub transcript_lower w)).length
    decide (10 * numMatches ≥ 3 * title_words.length)

/-! ### The specification's reading of the repetition check (for comparison)

The spec sentence behind claim C4 says the check extracts "all overlapping
3-word phrases (case-folded)".  The following definitions formalise that
sentence (sliding windows of width 3 over the whitespace-split words of the
lowercased text); they are deliberately written from the spec, to be compared
with `codePhrases`, which is written from the code. -/

/-- All overlapping (sliding) 3-word windows over a word list. -/
def windows3 : List String → List String
  | a :: b :: c :: rest => (a ++ " " ++ b ++ " " ++ c) :: windows3 (b :: c :: rest)
  | _ => []

/-- The spec's phrase list: all overlapping case-folded 3-word phrases. -/
def overlappingPhrases (transcript : String) : List String :=
  windows3 (pySplit (pyLower transcript))

/-- The spec's repetition criterion on the overlapping phrase list: the most
frequent phrase's count exceeds 10% of the total number of occurrences. -/
def specExcessiveRepetition (transcript : String) : Prop :=
  10 * maxCount (overlappingPhrases transcript) > (overlappingPhrases transcript).length

instance (t : String) : Decidable (specExcessiveRepetition t) := by
  unfold specExcessiveRepetition; infer_instance

/-! ### models.py -/

/-- `VideoMetadata` from models.py (pydantic model; fields in source order). -/
structure VideoMetadata where
  video_id : String
  title : String
  url : String
  transcript : String
  channel_name : String
  source_language : String := "en"
  provider_used : Option String := none
  deriving DecidableEq, Repr

/-! ### circuit_breaker.py -/

/-- `CircuitState = Literal["CLOSED", "OPEN", "HALF_OPEN"]`. -/
inductive CircuitState where
  | CLOSED
  | OPEN
  | HALF_OPEN
  deriving DecidableEq, Repr

/-- `CircuitBreakerState` from circuit_breaker.py, with its pydantic field
defaults.  Timestamps are abstract `Int` instants. -/
structure CircuitBreakerState where
  state : CircuitState := .CLOSED
  failure_count : Nat := 0
  last_failure_time : Option Int := none
  opened_at : Option Int := none
  deriving DecidableEq, Repr

/-- The constructor configuration of `CircuitBreaker`: `failure_threshold`
and `timeout = timedelta(hours=timeout_hours)` (same unit as timestamps). -/
structure BreakerConfig where
  failure_threshold : Nat := 3
  timeout : Int := 2
  deriving DecidableEq, Repr

namespace CircuitBreaker

/-- `CircuitBreaker._load_state`: the state file is either absent (`none`),
present but failing to parse (`some (.error ())` — the caught
`JSONDecodeError`/`ValueError`), or present and parsed.  Absent or corrupt
files yield a fresh default state. -/
def load_state (file : Option (Except Unit CircuitBreakerState)) : CircuitBreakerState :=
  match file with
  | some (.ok s) => s
  | some (.error _) => {}
  | none => {}

/-- `CircuitBreaker.is_open`, with `datetime.now()` passed as `now`.
Returns the boolean result together with the (possibly mutated and re-saved)
state, since the lazy OPEN→HALF_OPEN transition is a write side effect. -/
def is_open (cfg : BreakerConfig) (s : CircuitBreakerState) (now : Int) :
    Bool × CircuitBreakerState :=
  if s.state = .CLOSED then
    (false, s)
  else if s.state = .OPEN then
    match s.opened_at with
    | some t =>
      if now - t ≥ cfg.timeout then
        (false, { s with state := .HALF_OPEN })
      else
        (true, s)
    | none => (true, s)
  else
    (false, s)

/-- `CircuitBreaker.record_success`. -/
def record_success (s : CircuitBreakerState) : CircuitBreakerState :=
  { state := if s.state = .HALF_OPEN then .CLOSED else s.state,
    failure_count := 0,
    last_failure_time := none,
    opened_at := none }

/-- `CircuitBreaker.record_failure`, with `datetime.now()` passed as `now`. -/
def record_failure (cfg : BreakerConfig) (s : CircuitBreakerState) (now : Int) :
    CircuitBreakerState :=
  let fc := s.failure_count + 1
  if s.state = .HALF_OPEN then
    { state := .OPEN, failure_count := fc,
      last_failure_time := some now, opened_at := some now }
  else if fc ≥ cfg.failure_threshold then
    { state := .OPEN, failure_count := fc,
      last_failure_time := some now, opened_at := some now }
  else
    { s with failure_count := fc, last_failure_time := some now }

/-- `CircuitBreaker.reset`: replace the state with a fresh default. -/
def reset : CircuitBreakerState := {}

/-- `record_failure` applied once per timestamp in the list, left to right. -/
def applyFailures (cfg : BreakerConfig) (ts : List Int) (s : CircuitBreakerState) :
    CircuitBreakerState :=
  ts.foldl (fun s t => record_failure cfg s t) s

end CircuitBreaker

/-! ### cache.py -/

/-- `CachedVideo` from cache.py (`cached_at` is the write-time timestamp). -/
structure CachedVideo where
  metadata : VideoMetadata
  cached_at : Int
  provider : String
  deriving DecidableEq, Repr

deriving instance DecidableEq for Except

/-- One stored cache file: either parsed content or unparsable bytes
(`.error ()`, the caught `JSONDecodeError`/`ValueError`/`KeyError`). -/
abbrev CacheEntry := Except Unit CachedVideo

/-- The cache directory: one file per video id.  `VideoCache.set` keeps keys
unique, so an association list models the file system faithfully. -/
abbrev CacheStore := List (String × CacheEntry)

/-- The stored file for a video id, if any (`Path.exists` + read). -/
def lookupEntry : CacheStore → String → Option CacheEntry
  | [], _ => none
  | p :: rest, video_id => if p.1 = video_id then some p.2 else lookupEntry rest video_id

/-- `cache_path.unlink()`: remove the file for a video id. -/
def eraseEntry (video_id : String) : CacheStore → CacheStore
  | [] => []
  | p :: rest =>
    if p.1 = video_id then eraseEntry video_id rest else p :: eraseEntry video_id rest

namespace VideoCache

/-- `VideoCache.get` with TTL `ttl` and `datetime.now()` passed as `now`:
returns the result together with the possibly-mutated store (expired and
corrupt entries are unlinked as a side effect). -/
def get (ttl : Int) (store : CacheStore) (video_id : String) (now : Int) :
    Option VideoMetadata × CacheStore :=
  match lookupEntry store video_id with
  | none => (none, store)
  | some (.error _) => (none, eraseEntry video_id store)
  | some (.ok cv) =>
    if now - cv.cached_at > ttl then
      (none, eraseEntry video_id store)
    else
      (some cv.metadata, store)

/-- `VideoCache.set`: write (overwrite) the file for `video_id` with the
metadata, the current timestamp and the provider name. -/
def set (store : CacheStore) (video_id : String) (metadata : VideoMetadata)
    (provider : String) (now : Int) : CacheStore :=
  (video_id, .ok ⟨metadata, now, provider⟩) :: eraseEntry video_id store

/-- `VideoCache.invalidate`. -/
def invalidate (store : CacheStore) (video_id : String) : Bool × CacheStore :=
  match lookupEntry store video_id with
  | some _ => (true, eraseEntry video_id store)
  | none => (false, store)

/-- The counters computed by `VideoCache.stats` (the dictionary also reports
the TTL and the directory, which are configuration, not state). -/
structure Stats where
  total : Nat
  valid : Nat
  expired : Nat
  deriving DecidableEq, Repr

/-- `VideoCache.stats`: sweep all stored files; parsed entries within the TTL
count as valid, parsed entries beyond it and unparsable files as expired.
No file is deleted. -/
def stats (ttl : Int) (store : CacheStore) (now : Int) : Stats :=
  store.foldr
    (fun p acc =>
      match p.2 with
      | .ok cv =>
        if now - cv.cached_at ≤ ttl then
          { acc with total := acc.total + 1, valid := acc.valid + 1 }
        else
          { acc with total := acc.total + 1, expired := acc.expired + 1 }
      | .error _ => { acc with total := acc.total + 1, expired := acc.expired + 1 })
    ⟨0, 0, 0⟩

end VideoCache

/-! ### youtube.py — the acquisition orchestrator

Provider network behaviour is abstracted by an oracle
`attempt : String → Except String (String × String)`: for provider name `p`,
`attempt p` is the outcome the provider method body observes for the video at
hand.  For "supadata" and "decodo" this is the outcome of
`_try_supadata_provider` / `_try_decodo_provider` (whose not-configured
errors are part of the outcome); for "direct" it is the outcome of
`unofficial_provider.fetch_transcript`, around which `_try_direct_provider`
adds the circuit-breaker logic modelled explicitly below.  Every error value
is the message of a typed `TranscriptUnavailableError`. -/

namespace YouTubeClient

/-- The keys of `provider_map` in `_fetch_transcript_with_fallback`. -/
def knownProviders : List String := ["direct", "supadata", "decodo"]

/-- `_try_direct_provider`: consult the breaker (whose `is_open` check may
itself transition the state), skip with a typed error if open, otherwise run
the provider and record the outcome on the breaker. -/
def try_direct (cfg : BreakerConfig) (b : CircuitBreakerState) (now : Int)
    (attempt : Except String (String × String)) :
    Except String (String × String) × CircuitBreakerState :=
  let check := CircuitBreaker.is_open cfg b now
  if check.1 then
    (.error "circuit breaker open", check.2)
  else
    match attempt with
    | .ok r => (.ok r, CircuitBreaker.record_success check.2)
    | .error e => (.error e, CircuitBreaker.record_failure cfg check.2 now)

/-- `provider_map[name](video_id)`: the direct provider goes through the
circuit breaker, the paid providers use their oracle outcome directly. -/
def tryProvider (cfg : BreakerConfig) (now : Int)
    (attempt : String → Except String (String × String))
    (name : String) (b : CircuitBreakerState) :
    Except String (String × String) × CircuitBreakerState :=
  if name = "direct" then
    try_direct cfg b now (attempt "direct")
  else
    (attempt name, b)

/-- The provider loop of `_fetch_transcript_with_fallback`: `errors` is the
accumulated error list; unknown provider names are skipped; the first success
wins and is returned with the provider name; exhaustion raises a typed error
joining all accumulated per-provider messages with "; ". -/
def fetchLoop (cfg : BreakerConfig) (now : Int)
    (attempt : String → Except String (String × String)) (video_id : String) :
    List String → CircuitBreakerState → List String →
    Except String (String × String × String) × CircuitBreakerState
  | [], b, errors =>
    (.error ("All providers failed for " ++ video_id ++ ": " ++
      String.intercalate "; " errors), b)
  | name :: rest, b, errors =>
    if name ∈ knownProviders then
      match tryProvider cfg now attempt name b with
      | (.ok (t, l), b1) => (.ok (t, l, name), b1)
      | (.error e, b1) => fetchLoop cfg now attempt video_id rest b1 (errors ++ [name ++ ": " ++ e])
    else
      fetchLoop cfg now attempt video_id rest b errors

/-- `_fetch_transcript_with_fallback`, run on an already-split provider-order
list (the Python code splits the comma-separated order string and strips each
name before this loop). -/
def fetch_transcript_with_fallback (cfg : BreakerConfig) (now : Int)
    (attempt : String → Except String (String × String)) (video_id : String)
    (providers : List String) (b : CircuitBreakerState) :
    Except String (String × String × String) × CircuitBreakerState :=
  fetchLoop cfg now attempt video_id providers b []

/-- The title/channel dictionary produced by `_fetch_metadata` (which never
raises: it falls back to placeholder values). -/
structure FetchedMetadata where
  title : String
  channel_name : String
  deriving DecidableEq, Repr

/-- The typed `TranscriptUnavailableError`s `get_video_metadata` can raise
after URL extraction, distinguished by raise site; each carries the data
interpolated into the Python message. -/
inductive YTError where
  /-- Re-raise of the provider-exhaustion error of the fallback loop. -/
  | transcriptUnavailable (msg : String)
  /-- "Transcript quality too low for {video_id}: {issue}". -/
  | qualityTooLow (video_id : String) (issue : QualityIssue)
  /-- "Transcript content does not match video title for {video_id}. ...". -/
  | irrelevant (video_id : String)
  deriving DecidableEq, Repr

/-- The mutable state `get_video_metadata` touches: the cache directory and
the breaker state (both persisted on disk in the Python code). -/
structure ClientState where
  store : CacheStore
  breaker : CircuitBreakerState
  deriving DecidableEq, Repr

/-- `YouTubeClient.get_video_metadata`, from the point after
`extract_video_id` (the video id is passed directly; `url` is only stored in
the result).  `metadata_dict` is the outcome of `_fetch_metadata`. -/
def get_video_metadata (cfg : BreakerConfig) (ttl : Int) (now : Int)
    (attempt : String → Except String (String × String))
    (providers : List String) (metadata_dict : FetchedMetadata)
    (url video_id : String) (st : ClientState) :
    Except YTError VideoMetadata × ClientState :=
  match VideoCache.get ttl st.store video_id now with
  | (some cached, store1) => (.ok cached, { st with store := store1 })
  | (none, store1) =>
    match fetch_transcript_with_fallback cfg now attempt video_id providers st.breaker with
    | (.error e, b1) => (.error (.transcriptUnavailable e), ⟨store1, b1⟩)
    | (.ok (transcript, language, provider), b1) =>
      match validate_transcript_quality transcript metadata_dict.title with
      | some issue => (.error (.qualityTooLow video_id issue), ⟨store1, b1⟩)
      | none =>
        if ¬ check_transcript_relevance transcript metadata_dict.title then
          (.error (.irrelevant video_id), ⟨store1, b1⟩)
        else
          let result : VideoMetadata :=
            { video_id := video_id, title := metadata_dict.title, url := url,
              transcript := transcript, channel_name := metadata_dict.channel_name,
              source_language := language, provider_used := some provider }
          (.ok result, ⟨VideoCache.set store1 video_id result provider now, b1⟩)

/-- A run of the fallback loop in which every attempted provider fails:
`AllAttemptsFail cfg now attempt ps b msgs b1` holds when trying the provider
names `ps` in order from breaker state `b` produces only failures, appending
exactly the messages `msgs` (one "{provider}: {message}" entry per attempted
provider, in attempt order; unknown names are skipped) and ending in breaker
state `b1`. -/
inductive AllAttemptsFail (cfg : BreakerConfig) (now : Int)
    (attempt : String → Except String (String × String)) :
    List String → CircuitBreakerState → List String → CircuitBreakerState → Prop where
  | nil (b : CircuitBreakerState) : AllAttemptsFail cfg now attempt [] b [] b
  | cons_known {name : String} {b b1 b2 : CircuitBreakerState} {e : String}
      {rest : List String} {msgs : List String}
      (hknown : name ∈ knownProviders)
      (htry : tryProvider cfg now attempt name b = (.error e, b1))
      (htail : AllAttemptsFail cfg now attempt rest b1 msgs b2) :
      AllAttemptsFail cfg now attempt (name :: rest) b ((name ++ ": " ++ e) :: msgs) b2
  | cons_unknown {name : String} {b b2 : CircuitBreakerState}
      {rest : List String} {msgs : List String}
      (hunknown : name ∉ knownProviders)
      (htail : AllAttemptsFail cfg now attempt rest b msgs b2) :
      AllAttemptsFail cfg now attempt (name :: rest) b msgs b2

end YouTubeClient

/-! ### Concrete inputs used by witnesses and counterexamples -/

/-- A transcript of 30 words (129 characters, average word length 10/3) in
which the phrase "alpha beta gamma" occurs twice, aligned on the disjoint
3-word groups the code extracts: 2 of 10 extracted phrases (20%) but only
2 of 28 overlapping windows (about 7%). -/
def cexTranscript : String :=
  "alpha beta gamma naa nab nac nad nae naf nag nah nai naj nak nal nam nan nao nap naq nar nas nat nau nav naw nax alpha beta gamma"

/-- A breaker configuration with the default threshold 3 and timeout 2. -/
def wCfg : BreakerConfig := {}

/-- Provider outcomes: supadata fails with "quota", the others succeed. -/
def wAttemptSupaFails : String → Except String (String × String) := fun name =>
  if name = "supadata" then .error "quota" else .ok ("tx", "en")

/-- Provider outcomes: every provider fails, each with its own message. -/
def wAttemptAllFail : String → Except String (String × String) := fun name =>
  if name = "direct" then .error "no captions"
  else if name = "supadata" then .error "HTTP 402"
  else .error "not configured"

/-- Provider outcomes: every provider succeeds with transcript "x". -/
def wAttemptShortOk : String → Except String (String × String) := fun _ =>
  .ok ("x", "en")

/-- A breaker state that is OPEN since instant 0. -/
def wOpenBreaker : CircuitBreakerState :=
  { state := .OPEN, failure_count := 3, last_failure_time := some 0, opened_at := some 0 }

/-- A breaker state that is OPEN with no recorded open timestamp. -/
def wOpenNoStamp : CircuitBreakerState :=
  { state := .OPEN, failure_count := 0, last_failure_time := none, opened_at := none }

/-- OPEN with no open timestamp and failure count 2 (one below threshold). -/
def wOpenNoStamp2 : CircuitBreakerState :=
  { state := .OPEN, failure_count := 2, last_failure_time := none, opened_at := none }

/-- A concrete video metadata value. -/
def wMeta : VideoMetadata :=
  { video_id := "vid", title := "T", url := "u", transcript := "old words here",
    channel_name := "chan" }

/-- A client state whose cache holds an entry for "vid" written at instant 0. -/
def wStaleState : YouTubeClient.ClientState :=
  ⟨[("vid", .ok ⟨wMeta, 0, "direct"⟩)], {}⟩

/-- The breaker state after the direct provider records one failure at
instant 0 from the fresh state. -/
def wB1 : CircuitBreakerState :=
  { state := .CLOSED, failure_count := 1, last_failure_time := some 0, opened_at := none }

/-! ## Circuit-breaker lemmas -/

namespace CircuitBreaker

theorem record_failure_below (cfg : BreakerConfig) (s : CircuitBreakerState) (now : Int)
    (hs : s.state ≠ .HALF_OPEN) (h : s.failure_count + 1 < cfg.failure_threshold) :
    record_failure cfg s now
      = { s with failure_count := s.failure_count + 1, last_failure_time := some now } := by
  unfold record_failure
  rw [if_neg hs, if_neg (by omega)]

theorem record_failure_closed_lt (cfg : BreakerConfig) (s : CircuitBreakerState) (now : Int)
    (hs : s.state = .CLOSED) (h : s.failure_count + 1 < cfg.failure_threshold) :
    record_failure cfg s now
      = { s with failure_count := s.failure_count + 1, last_failure_time := some now } :=
  record_failure_below cfg s now (by rw [hs]; intro hc; cases hc) h

theorem record_failure_reaches (cfg : BreakerConfig) (s : CircuitBreakerState) (now : Int)
    (h : cfg.failure_threshold ≤ s.failure_count + 1) :
    record_failure cfg s now
      = { state := .OPEN, failure_count := s.failure_count + 1,
          last_failure_time := some now, opened_at := some now } := by
  unfold record_failure
  by_cases hs : s.state = .HALF_OPEN
  · rw [if_pos hs]
  · rw [if_neg hs, if_pos (by omega)]

theorem applyFailures_closed (cfg : BreakerConfig) (ts : List Int) :
    ∀ s : CircuitBreakerState, s.state = .CLOSED →
      s.failure_count + ts.length < cfg.failure_threshold →
      (applyFailures cfg ts s).state = .CLOSED ∧
      (applyFailures cfg ts s).failure_count = s.failure_count + ts.length ∧
      (applyFailures cfg ts s).opened_at = s.opened_at := by
  induction ts with
  | nil =>
    intro s hs hc
    exact ⟨hs, by simp [applyFailures], by simp [applyFailures]⟩
  | cons t ts ih =>
    intro s hs hc
    have hstep := record_failure_closed_lt cfg s t hs (by simp at hc; omega)
    have hfold : applyFailures cfg (t :: ts) s = applyFailures cfg ts (record_failure cfg s t) := by
      simp [applyFailures]
    rw [hfold, hstep]
    obtain ⟨h1, h2, h3⟩ :=
      ih { s with failure_count := s.failure_count + 1, last_failure_time := some t }
        hs (by simp at hc ⊢; omega)
    refine ⟨h1, ?_, h3⟩
    rw [h2]
    simp
    omega

theorem applyFailures_opens (cfg : BreakerConfig) (ts : List Int) :
    ∀ (s : CircuitBreakerState) (tn : Int), s.state = .CLOSED →
      s.failure_count + ts.length = cfg.failure_threshold →
      ts.getLast? = some tn →
      (applyFailures cfg ts s).state = .OPEN ∧
      (applyFailures cfg ts s).opened_at = some tn := by
  induction ts with
  | nil => intro s tn hs hc hlast; cases hlast
  | cons t ts ih =>
    intro s tn hs hc hlast
    cases ts with
    | nil =>
      have hlast2 : t = tn := by
        simpa using hlast
      have : applyFailures cfg [t] s = record_failure cfg s t := by
        simp [applyFailures]
      rw [this, record_failure_reaches cfg s t (by simp at hc; omega), hlast2]
      exact ⟨rfl, rfl⟩
    | cons t2 ts2 =>
      have hstep := record_failure_closed_lt cfg s t hs (by simp at hc; omega)
      have hfold : applyFailures cfg (t :: t2 :: ts2) s
          = applyFailures cfg (t2 :: ts2) (record_failure cfg s t) := by
        simp [applyFailures]
      rw [hfold, hstep]
      exact ih { s with failure_count := s.failure_count + 1, last_failure_time := some t }
        tn hs (by simp at hc ⊢; omega) (by simpa using hlast)

/-- In every situation in which `is_open` reports `true`, it leaves the
breaker state untouched (only the not-blocking OPEN→HALF_OPEN answer writes). -/
theorem is_open_true_frame (cfg : BreakerConfig) (s : CircuitBreakerState) (now : Int)
    (h : (is_open cfg s now).1 = true) : (is_open cfg s now).2 = s := by
  obtain ⟨st, fc, lf, oa⟩ := s
  cases st with
  | CLOSED => simp [is_open] at h
  | HALF_OPEN => simp [is_open] at h
  | OPEN =>
    cases oa with
    | none => simp [is_open]
    | some t =>
      by_cases h3 : now - t ≥ cfg.timeout
      · simp [is_open, h3] at h
      · simp [is_open, h3]

end CircuitBreaker

/-! ## Claims about the circuit breaker -/

/-- C2: starting from a fresh Closed breaker with failure count 0 and
threshold T ≥ 1, exactly T consecutive `record_failure` calls reach the Open
state and record the open timestamp (the instant of the last failure); after
only T-1 calls the state is still Closed (with failure count T-1); and a
`record_success` on a Closed state resets the state to the fresh default, so
a fresh run of T failures is needed to open. -/
theorem claim_C2 (cfg : BreakerConfig) (hT : 1 ≤ cfg.failure_threshold) :
    (∀ (ts : List Int) (tn : Int),
        ts.length = cfg.failure_threshold → ts.getLast? = some tn →
        (CircuitBreaker.applyFailures cfg ts {}).state = .OPEN ∧
        (CircuitBreaker.applyFailures cfg ts {}).opened_at = some tn) ∧
    (∀ ts : List Int, ts.length = cfg.failure_threshold - 1 →
        (CircuitBreaker.applyFailures cfg ts {}).state = .CLOSED ∧
        (CircuitBreaker.applyFailures cfg ts {}).failure_count = cfg.failure_threshold - 1) ∧
    (∀ s : CircuitBreakerState, s.state = .CLOSED →
        CircuitBreaker.record_success s = ({} : CircuitBreakerState)) := by
  refine ⟨?_, ?_, ?_⟩
  · intro ts tn hlen hlast
    exact CircuitBreaker.applyFailures_opens cfg ts {} tn rfl (by simp [hlen]) hlast
  · intro ts hlen
    obtain ⟨h1, h2, h3⟩ :=
      CircuitBreaker.applyFailures_closed cfg ts {} rfl (by simp [hlen]; omega)
    exact ⟨h1, by simp [h2, hlen]⟩
  · intro s hs
    simp [CircuitBreaker.record_success, hs]

/-- Witness for C2 at the default threshold 3: failures at instants 5, 6, 7
open the breaker with open timestamp 7; failures at 5, 6 only leave it
Closed; a success on a Closed state restores the fresh default state. -/
theorem claim_C2_witness :
    (CircuitBreaker.applyFailures wCfg [5, 6, 7] {}).state = .OPEN ∧
    (CircuitBreaker.applyFailures wCfg [5, 6, 7] {}).opened_at = some 7 ∧
    (CircuitBreaker.applyFailures wCfg [5, 6] {}).state = .CLOSED ∧
    CircuitBreaker.record_success
        { state := .CLOSED, failure_count := 2, last_failure_time := some 6, opened_at := none }
      = ({} : CircuitBreakerState) := by
  have h := claim_C2 wCfg (by decide)
  obtain ⟨ho, hoa⟩ := h.1 [5, 6, 7] 7 (by decide) (by decide)
  exact ⟨ho, hoa, (h.2.1 [5, 6] (by decide)).1, h.2.2 _ rfl⟩

/-- C3: from an Open state with a recorded open timestamp, `is_open` at an
instant past the timeout returns false and moves the state to Half-Open,
while before the timeout it returns true and changes nothing; from any
Half-Open state, `record_success` yields the Closed state with failure count
0, and `record_failure` yields Open with a freshly recorded open timestamp. -/
theorem claim_C3 (cfg : BreakerConfig) (s : CircuitBreakerState) (t now now2 : Int)
    (hs : s.state = .OPEN) (ht : s.opened_at = some t) :
    (cfg.timeout ≤ now - t →
        CircuitBreaker.is_open cfg s now = (false, { s with state := .HALF_OPEN })) ∧
    (now - t < cfg.timeout →
        CircuitBreaker.is_open cfg s now = (true, s)) ∧
    (∀ s2 : CircuitBreakerState, s2.state = .HALF_OPEN →
        CircuitBreaker.record_success s2
          = { state := .CLOSED, failure_count := 0,
              last_failure_time := none, opened_at := none } ∧
        CircuitBreaker.record_failure cfg s2 now2
          = { state := .OPEN, failure_count := s2.failure_count + 1,
              last_failure_time := some now2, opened_at := some now2 }) := by
  refine ⟨?_, ?_, ?_⟩
  · intro h
    simp [CircuitBreaker.is_open, hs, ht, h]
  · intro h
    have hneg : ¬ (now - t ≥ cfg.timeout) := not_le.mpr h
    simp [CircuitBreaker.is_open, hs, ht, hneg]
  · intro s2 hs2
    constructor
    · simp [CircuitBreaker.record_success, hs2]
    · simp [CircuitBreaker.record_failure, hs2]

/-- Witness for C3 with timeout 2, opened at instant 0: `is_open` at instant
2 returns false and moves to Half-Open, at instant 1 returns true and changes
nothing; from Half-Open, a success closes and a failure at instant 9 reopens
with open timestamp 9. -/
theorem claim_C3_witness :
    CircuitBreaker.is_open wCfg wOpenBreaker 2
      = (false, { wOpenBreaker with state := .HALF_OPEN }) ∧
    CircuitBreaker.is_open wCfg wOpenBreaker 1 = (true, wOpenBreaker) ∧
    CircuitBreaker.record_success { wOpenBreaker with state := .HALF_OPEN }
      = { state := .CLOSED, failure_count := 0,
          last_failure_time := none, opened_at := none } ∧
    CircuitBreaker.record_failure wCfg { wOpenBreaker with state := .HALF_OPEN } 9
      = { state := .OPEN, failure_count := 4,
          last_failure_time := some 9, opened_at := some 9 } := by
  have h2 := claim_C3 wCfg wOpenBreaker 0 2 9 rfl rfl
  have h1 := claim_C3 wCfg wOpenBreaker 0 1 9 rfl rfl
  obtain ⟨hsucc, hfail⟩ := h2.2.2 { wOpenBreaker with state := .HALF_OPEN } rfl
  exact ⟨h2.1 (by decide), h1.2.1 (by decide), hsucc, hfail⟩

/-- C10: a `record_success` in the Open state leaves the state Open while
resetting the failure count to 0 and clearing the open timestamp; from any
Open state without an open timestamp, `is_open` returns true and performs no
transition, so the breaker leaves Open only through `reset` or through the
failure count again reaching the threshold in `record_failure`, which records
a new open timestamp (below the threshold, `record_failure` keeps the state
Open with no open timestamp). -/
theorem claim_C10 (cfg : BreakerConfig) (s : CircuitBreakerState) (now now2 : Int)
    (hs : s.state = .OPEN) :
    (CircuitBreaker.record_success s).state = .OPEN ∧
    (CircuitBreaker.record_success s).failure_count = 0 ∧
    (CircuitBreaker.record_success s).opened_at = none ∧
    (∀ s2 : CircuitBreakerState, s2.state = .OPEN → s2.opened_at = none →
        CircuitBreaker.is_open cfg s2 now = (true, s2)) ∧
    (∀ s2 : CircuitBreakerState, s2.state = .OPEN →
        (s2.failure_count + 1 < cfg.failure_threshold →
          CircuitBreaker.record_failure cfg s2 now2
            = { s2 with
                failure_count := s2.failure_count + 1,
                last_failure_time := some now2 }) ∧
        (cfg.failure_threshold ≤ s2.failure_count + 1 →
          CircuitBreaker.record_failure cfg s2 now2
            = { state := .OPEN, failure_count := s2.failure_count + 1,
                last_failure_time := some now2, opened_at := some now2 })) ∧
    CircuitBreaker.reset = ({} : CircuitBreakerState) := by
  refine ⟨?_, rfl, rfl, ?_, ?_, rfl⟩
  · simp [CircuitBreaker.record_success, hs]
  · intro s2 hs2 hoa
    simp [CircuitBreaker.is_open, hs2, hoa]
  · intro s2 hs2
    refine ⟨?_, ?_⟩
    · intro h
      exact CircuitBreaker.record_failure_below cfg s2 now2
        (by rw [hs2]; intro hc; cases hc) h
    · intro h
      exact CircuitBreaker.record_failure_reaches cfg s2 now2 h

/-- Witness for C10: a success while Open keeps the state Open with count 0
and no open timestamp; from that configuration `is_open` still reports open
and leaves the state alone; three more failures (threshold 3) re-open with a
fresh timestamp, and `reset` restores the default. -/
theorem claim_C10_witness :
    (CircuitBreaker.record_success wOpenBreaker).state = .OPEN ∧
    (CircuitBreaker.record_success wOpenBreaker).opened_at = none ∧
    CircuitBreaker.is_open wCfg wOpenNoStamp 50 = (true, wOpenNoStamp) ∧
    CircuitBreaker.record_failure wCfg wOpenNoStamp2 51
      = { state := .OPEN, failure_count := 3,
          last_failure_time := some 51, opened_at := some 51 } := by
  have h := claim_C10 wCfg wOpenBreaker 50 51 rfl
  refine ⟨h.1, h.2.2.1, h.2.2.2.1 wOpenNoStamp rfl rfl, ?_⟩
  exact (h.2.2.2.2.1 wOpenNoStamp2 rfl).2 (by decide)

/-- C9: corrupt or unreadable persisted state is recovered, never surfaced:
a breaker state file that fails to parse (or is absent) loads as the fresh
Closed state with failure count 0, and a cache file that fails to parse makes
`get` remove the file and report absent, without any error escaping (the
modelled `get` returns a value in all cases). -/
theorem claim_C9 (ttl : Int) :
    (∀ e : Unit, CircuitBreaker.load_state (some (.error e)) = ({} : CircuitBreakerState)) ∧
    CircuitBreaker.load_state none = ({} : CircuitBreakerState) ∧
    ({} : CircuitBreakerState).state = .CLOSED ∧
    ({} : CircuitBreakerState).failure_count = 0 ∧
    (∀ (store : CacheStore) (video_id : String) (now : Int),
        lookupEntry store video_id = some (.error ()) →
        VideoCache.get ttl store video_id now = (none, eraseEntry video_id store)) := by
  refine ⟨fun e => rfl, rfl, rfl, rfl, ?_⟩
  intro store video_id now h
  unfold VideoCache.get
  rw [h]

/-- Witness for C9: a concrete corrupt cache file for "vid" is unlinked and
reported absent, and a corrupt breaker state file loads as the default. -/
theorem claim_C9_witness :
    CircuitBreaker.load_state (some (.error ())) = ({} : CircuitBreakerState) ∧
    VideoCache.get 168 [("vid", .error ())] "vid" 5 = (none, []) := by
  have h := claim_C9 168
  refine ⟨h.1 (), ?_⟩
  have := h.2.2.2.2 [("vid", .error ())] "vid" 5 (by decide)
  simpa using this

/-! ## Cache lemmas and claim C8 -/

theorem eraseEntry_idem (video_id : String) (store : CacheStore) :
    eraseEntry video_id (eraseEntry video_id store) = eraseEntry video_id store := by
  induction store with
  | nil => rfl
  | cons p rest ih =>
    by_cases h : p.1 = video_id
    · simp [eraseEntry, h, ih]
    · simp [eraseEntry, h, ih]

theorem lookupEntry_erase_self (video_id : String) (store : CacheStore) :
    lookupEntry (eraseEntry video_id store) video_id = none := by
  induction store with
  | nil => rfl
  | cons p rest ih =>
    by_cases h : p.1 = video_id
    · simp [eraseEntry, h, ih]
    · simp [eraseEntry, lookupEntry, h, ih]

/-- C8: writing an entry and reading it back at the same instant yields the
written metadata; if instead the read happens once the entry's age exceeds
the TTL, the read reports absent and unlinks the entry (the store reverts to
the pre-write store minus any older entry for that id, and a lookup finds
nothing), and a subsequent `stats` sweep counts one file fewer in total while
the valid count is unchanged — the expired entry is counted by no bucket. -/
theorem claim_C8 (ttl : Int) (store : CacheStore) (video_id : String)
    (r : VideoMetadata) (provider : String) (t0 t1 : Int) (httl : 0 ≤ ttl) :
    VideoCache.get ttl (VideoCache.set store video_id r provider t0) video_id t0
      = (some r, VideoCache.set store video_id r provider t0) ∧
    (ttl < t1 - t0 →
      VideoCache.get ttl (VideoCache.set store video_id r provider t0) video_id t1
        = (none, eraseEntry video_id store) ∧
      lookupEntry (eraseEntry video_id store) video_id = none ∧
      (VideoCache.stats ttl (eraseEntry video_id store) t1).valid
        = (VideoCache.stats ttl (VideoCache.set store video_id r provider t0) t1).valid ∧
      (VideoCache.stats ttl (eraseEntry video_id store) t1).total + 1
        = (VideoCache.stats ttl (VideoCache.set store video_id r provider t0) t1).total) := by
  constructor
  · have h0 : ¬ (t0 - t0 > ttl) := by omega
    simp [VideoCache.get, VideoCache.set, lookupEntry, h0]
    omega
  · intro hexp
    have hgt : t1 - t0 > ttl := by omega
    have hcond : ¬ (t1 ≤ ttl + t0) := by omega
    refine ⟨?_, lookupEntry_erase_self video_id store, ?_, ?_⟩
    · simp [VideoCache.get, VideoCache.set, lookupEntry, hgt, eraseEntry,
        eraseEntry_idem]
    · simp [VideoCache.set, VideoCache.stats, hcond]
    · simp [VideoCache.set, VideoCache.stats, hcond]

/-- Witness for C8 with TTL 168: a write at instant 0 read back at instant 0
returns the value; read at instant 169 it has expired, is removed, and the
stats sweep counts it in no bucket. -/
theorem claim_C8_witness :
    VideoCache.get 168 (VideoCache.set [] "vid" wMeta "direct" 0) "vid" 0
      = (some wMeta, VideoCache.set [] "vid" wMeta "direct" 0) ∧
    VideoCache.get 168 (VideoCache.set [] "vid" wMeta "direct" 0) "vid" 169
      = (none, eraseEntry "vid" []) ∧
    lookupEntry (eraseEntry "vid" []) "vid" = none ∧
    (VideoCache.stats 168 (eraseEntry "vid" []) 169).valid
      = (VideoCache.stats 168 (VideoCache.set [] "vid" wMeta "direct" 0) 169).valid ∧
    (VideoCache.stats 168 (eraseEntry "vid" []) 169).total + 1
      = (VideoCache.stats 168 (VideoCache.set [] "vid" wMeta "direct" 0) 169).total := by
  have h := claim_C8 168 [] "vid" wMeta "direct" 0 169 (by decide)
  obtain ⟨h1, h2⟩ := h
  obtain ⟨h3, h4, h5, h6⟩ := h2 (by decide)
  exact ⟨h1, h3, h4, h5, h6⟩

/-! ## Claims about the fallback orchestrator -/

/-- C1: for a provider order [A, B, C], if attempting A yields a typed
transcript-unavailable failure and attempting B (from the state A left)
succeeds, the fallback loop returns B's transcript with provider name B and
B's resulting breaker state — whatever provider C is and however it would
behave (C is universally quantified and `attempt` is unconstrained at C, so
the result cannot depend on C being invoked). -/
theorem claim_C1 (cfg : BreakerConfig) (now : Int)
    (attempt : String → Except String (String × String))
    (video_id : String) (A B C : String) (b0 b1 b2 : CircuitBreakerState)
    (eA t l : String)
    (hA : A ∈ YouTubeClient.knownProviders)
    (hB : B ∈ YouTubeClient.knownProviders)
    (htryA : YouTubeClient.tryProvider cfg now attempt A b0 = (.error eA, b1))
    (htryB : YouTubeClient.tryProvider cfg now attempt B b1 = (.ok (t, l), b2)) :
    YouTubeClient.fetch_transcript_with_fallback cfg now attempt video_id [A, B, C] b0
      = (.ok (t, l, B), b2) := by
  simp [YouTubeClient.fetch_transcript_with_fallback, YouTubeClient.fetchLoop,
    hA, hB, htryA, htryB]

/-- Witness for C1: with supadata failing ("quota") and decodo succeeding,
the order [supadata, decodo, direct] returns decodo's transcript labelled
"decodo" without consulting the third provider. -/
theorem claim_C1_witness :
    YouTubeClient.tryProvider wCfg 0 wAttemptSupaFails "supadata" {}
      = (.error "quota", {}) ∧
    YouTubeClient.tryProvider wCfg 0 wAttemptSupaFails "decodo" {}
      = (.ok ("tx", "en"), {}) ∧
    YouTubeClient.fetch_transcript_with_fallback wCfg 0 wAttemptSupaFails "vid"
        ["supadata", "decodo", "direct"] {}
      = (.ok ("tx", "en", "decodo"), {}) := by
  refine ⟨rfl, rfl, ?_⟩
  exact claim_C1 wCfg 0 wAttemptSupaFails "vid" "supadata" "decodo" "direct"
    {} {} {} "quota" "tx" "en" (by decide) (by decide) rfl rfl

theorem fetchLoop_allFail (cfg : BreakerConfig) (now : Int)
    (attempt : String → Except String (String × String)) (video_id : String)
    {ps : List String} {b : CircuitBreakerState} {msgs : List String}
    {b1 : CircuitBreakerState}
    (h : YouTubeClient.AllAttemptsFail cfg now attempt ps b msgs b1) :
    ∀ errors : List String,
      YouTubeClient.fetchLoop cfg now attempt video_id ps b errors
        = (.error ("All providers failed for " ++ video_id ++ ": " ++
            String.intercalate "; " (errors ++ msgs)), b1) := by
  induction h with
  | nil b =>
    intro errors
    simp [YouTubeClient.fetchLoop]
  | cons_known hknown htry htail ih =>
    intro errors
    simp only [YouTubeClient.fetchLoop, if_pos hknown, htry]
    rw [ih]
    simp

  | cons_unknown hunknown htail ih =>
    intro errors
    simp only [YouTubeClient.fetchLoop, if_neg hunknown]
    exact ih errors

/-- C6: whenever every attempted provider in the order fails (with unknown
names skipped), the fallback raises a typed transcript-unavailable error
whose message is exactly the exhaustion prefix followed by the per-provider
entries "{provider}: {message}" in attempt order, joined by "; " — no
individual failure reason is dropped. -/
theorem claim_C6 (cfg : BreakerConfig) (now : Int)
    (attempt : String → Except String (String × String)) (video_id : String)
    (ps : List String) (b : CircuitBreakerState) (msgs : List String)
    (b1 : CircuitBreakerState)
    (h : YouTubeClient.AllAttemptsFail cfg now attempt ps b msgs b1) :
    YouTubeClient.fetch_transcript_with_fallback cfg now attempt video_id ps b
      = (.error ("All providers failed for " ++ video_id ++ ": " ++
          String.intercalate "; " msgs), b1) := by
  have := fetchLoop_allFail cfg now attempt video_id h []
  simpa using this

/-- Witness for C6: with all of direct, supadata and decodo failing, the
raised message lists all three reasons in order, joined by "; ". -/
theorem claim_C6_witness :
    YouTubeClient.fetch_transcript_with_fallback wCfg 0 wAttemptAllFail "vid"
        ["direct", "supadata", "decodo"] {}
      = (.error
          "All providers failed for vid: direct: no captions; supadata: HTTP 402; decodo: not configured",
          wB1) := by
  have hd : YouTubeClient.AllAttemptsFail wCfg 0 wAttemptAllFail
      ["direct", "supadata", "decodo"] {}
      ["direct: no captions", "supadata: HTTP 402", "decodo: not configured"] wB1 :=
    .cons_known (by decide) rfl
      (.cons_known (by decide) rfl
        (.cons_known (by decide) rfl (.nil wB1)))
  exact claim_C6 wCfg 0 wAttemptAllFail "vid" ["direct", "supadata", "decodo"] {}
    ["direct: no captions", "supadata: HTTP 402", "decodo: not configured"] wB1 hd

/-- C7: when the direct provider's turn comes while the breaker reports open,
the provider is skipped before being called (the conclusion holds for every
underlying attempt outcome), the synthetic failure "circuit breaker open" is
appended to the aggregated error list as "direct: circuit breaker open", and
the breaker state is left exactly as it was — in particular no failure is
recorded against it. -/
theorem claim_C7 (cfg : BreakerConfig) (now : Int)
    (attempt : String → Except String (String × String)) (video_id : String)
    (rest : List String) (b : CircuitBreakerState) (errors : List String)
    (hopen : (CircuitBreaker.is_open cfg b now).1 = true) :
    (∀ att : Except String (String × String),
        YouTubeClient.try_direct cfg b now att = (.error "circuit breaker open", b)) ∧
    YouTubeClient.fetchLoop cfg now attempt video_id ("direct" :: rest) b errors
      = YouTubeClient.fetchLoop cfg now attempt video_id rest b
          (errors ++ ["direct: circuit breaker open"]) := by
  have hframe := CircuitBreaker.is_open_true_frame cfg b now hopen
  have hskip : ∀ att : Except String (String × String),
      YouTubeClient.try_direct cfg b now att = (.error "circuit breaker open", b) := by
    intro att
    simp [YouTubeClient.try_direct, hopen, hframe]
  refine ⟨hskip, ?_⟩
  have hdir : "direct" ∈ YouTubeClient.knownProviders := by decide
  simp only [YouTubeClient.fetchLoop, if_pos hdir, YouTubeClient.tryProvider,
    if_pos rfl, hskip (attempt "direct")]
  rfl

/-- Witness for C7: with the breaker open since instant 0 and queried at
instant 1 (before the 2-unit timeout), the direct provider is skipped even
though its underlying fetch would succeed, and the loop proceeds with the
synthetic message and the untouched breaker state. -/
theorem claim_C7_witness :
    (CircuitBreaker.is_open wCfg wOpenBreaker 1).1 = true ∧
    YouTubeClient.try_direct wCfg wOpenBreaker 1 (.ok ("tx", "en"))
      = (.error "circuit breaker open", wOpenBreaker) ∧
    YouTubeClient.fetchLoop wCfg 1 wAttemptShortOk "vid" ["direct", "supadata"]
        wOpenBreaker []
      = YouTubeClient.fetchLoop wCfg 1 wAttemptShortOk "vid" ["supadata"]
          wOpenBreaker ["direct: circuit breaker open"] := by
  have h := claim_C7 wCfg 1 wAttemptShortOk "vid" ["supadata"] wOpenBreaker [] (by decide)
  exact ⟨by decide, h.1 (.ok ("tx", "en")), by simpa using h.2⟩

/-! ## Claim C5: the quality gate blocks caching -/

/-- Counterexample to C5 as stated: the cache holds an entry for "vid"
written at instant 0; at instant 169 (TTL 168) the lookup inside
`get_video_metadata` evicts it as expired, the provider fetch then succeeds
at the transport level with the one-character transcript "x", quality
validation fails, and a typed error is raised — but the cache state for
"vid" is NOT the same as before the call: the id had an entry before and has
none after (the expired entry was removed by the read). -/
theorem claim_C5_counterexample :
    lookupEntry wStaleState.store "vid" = some (.ok ⟨wMeta, 0, "direct"⟩) ∧
    (YouTubeClient.get_video_metadata wCfg 168 169 wAttemptShortOk ["supadata"]
        ⟨"T", "chan"⟩ "u" "vid" wStaleState).1
      = .error (.qualityTooLow "vid" (.tooShort 1 100)) ∧
    lookupEntry
        (YouTubeClient.get_video_metadata wCfg 168 169 wAttemptShortOk ["supadata"]
          ⟨"T", "chan"⟩ "u" "vid" wStaleState).2.store "vid"
      = none := by
  decide

/-- C5 (amended): if the cache lookup misses (possibly evicting an expired or
corrupt entry as a side effect of the read, leaving store `store1`), the
provider fetch succeeds at the transport level, and the transcript fails
quality validation or the relevance check, then `get_video_metadata` raises a
typed transcript-unavailable error and performs no cache write: the final
cache state is exactly the post-lookup store `store1`, so no entry for the
id is ever added and the result is never returned successfully. -/
theorem claim_C5 (cfg : BreakerConfig) (ttl now : Int)
    (attempt : String → Except String (String × String)) (providers : List String)
    (md : YouTubeClient.FetchedMetadata) (url video_id : String)
    (st : YouTubeClient.ClientState) (store1 : CacheStore)
    (tr lang prov : String) (b1 : CircuitBreakerState)
    (hmiss : VideoCache.get ttl st.store video_id now = (none, store1))
    (hfetch : YouTubeClient.fetch_transcript_with_fallback cfg now attempt
        video_id providers st.breaker = (.ok (tr, lang, prov), b1))
    (hbad : validate_transcript_quality tr md.title ≠ none ∨
        check_transcript_relevance tr md.title = false) :
    (∃ e, (YouTubeClient.get_video_metadata cfg ttl now attempt providers
        md url video_id st).1 = .error e) ∧
    (YouTubeClient.get_video_metadata cfg ttl now attempt providers
        md url video_id st).2.store = store1 := by
  unfold YouTubeClient.get_video_metadata
  rw [hmiss, hfetch]
  dsimp only
  cases hv : validate_transcript_quality tr md.title with
  | some issue => simp [hv]
  | none =>
    have hrel : check_transcript_relevance tr md.title = false := by
      rcases hbad with h | h
      · exact absurd hv h
      · exact h
    simp [hv, hrel]

/-- Witness for the amended C5, in the scenario of the counterexample: the
call errors and the final store is exactly the post-eviction store `[]`. -/
theorem claim_C5_witness :
    (∃ e, (YouTubeClient.get_video_metadata wCfg 168 169 wAttemptShortOk ["supadata"]
        ⟨"T", "chan"⟩ "u" "vid" wStaleState).1 = .error e) ∧
    (YouTubeClient.get_video_metadata wCfg 168 169 wAttemptShortOk ["supadata"]
        ⟨"T", "chan"⟩ "u" "vid" wStaleState).2.store = [] := by
  exact claim_C5 wCfg 168 169 wAttemptShortOk ["supadata"] ⟨"T", "chan"⟩ "u" "vid"
    wStaleState [] "x" "en" "supadata" {} (by decide) rfl (.inl (by decide))

/-! ## Claim C4: the repetition check -/

theorem maxBySnd_foldl_snd {α : Type} (ps : List (α × Nat)) :
    ∀ p : α × Nat,
      (ps.foldl (fun best q => if q.2 > best.2 then q else best) p).2
        = max p.2 ((ps.map Prod.snd).foldr max 0) := by
  induction ps with
  | nil => intro p; simp
  | cons q ps ih =>
    intro p
    simp only [List.foldl_cons, List.map_cons, List.foldr_cons]
    rw [ih]
    by_cases h : q.2 > p.2
    · rw [if_pos h, max_eq_right (le_trans (le_of_lt h) (le_max_left _ _))]
    · rw [if_neg h, ← max_assoc, max_eq_left (le_of_not_lt h)]

theorem mostCommon1_eq_none (l : List String) : mostCommon1 l = none ↔ l = [] := by
  cases l with
  | nil => simp [mostCommon1, firstOccs, maxBySnd]
  | cons x xs => simp [mostCommon1, firstOccs, maxBySnd]

theorem mostCommon1_snd (l : List String) (ph : String) (cnt : Nat)
    (h : mostCommon1 l = some (ph, cnt)) : cnt = maxCount l := by
  cases l with
  | nil => simp [mostCommon1, firstOccs, maxBySnd] at h
  | cons x xs =>
    rw [mostCommon1, firstOccs] at h
    simp only [List.map_cons, maxBySnd, Option.some.injEq] at h
    have h2 := congrArg Prod.snd h
    rw [maxBySnd_foldl_snd] at h2
    dsimp only at h2
    rw [← h2, maxCount, firstOccs]
    simp [List.map_map, Function.comp_def]

set_option maxRecDepth 200000 in
/-- Counterexample to C4 as stated: on `cexTranscript` (which passes the
length and average-word-length checks) the code reports excessive repetition
— "alpha beta gamma" is 2 of the 10 NON-overlapping phrases `re.findall`
extracts, and 2 > 10 · 0.1 — whereas the claimed overlapping-phrase
criterion does not hold: the phrase is 2 of 28 overlapping windows and
2 ≤ 28 · 0.1, so the claimed "issue exactly when the most frequent
overlapping phrase exceeds 10%" is false at this input. -/
theorem claim_C4_counterexample :
    validate_transcript_quality cexTranscript "t"
      = some (.excessiveRepetition "alpha beta gamma" 2) ∧
    ¬ specExcessiveRepetition cexTranscript := by
  decide

/-- C4 (amended): for transcripts that pass the length and
average-word-length checks, `validate_transcript_quality` extracts the
case-folded 3-word phrases by leftmost NON-overlapping matching (each word
belongs to at most one extracted phrase) and returns an excessive-repetition
issue exactly when the most frequent such phrase's count exceeds 10% of the
total number of extracted phrases. -/
theorem claim_C4 (transcript title : String)
    (h1 : ¬ (pyStrip transcript).length < 100)
    (h2 : ¬ ((pySplit transcript).length ≠ 0 ∧
        2 * ((pySplit transcript).map String.length).sum
          < 5 * (pySplit transcript).length)) :
    (∃ ph cnt, validate_transcript_quality transcript title
        = some (.excessiveRepetition ph cnt))
      ↔ (codePhrases transcript ≠ [] ∧
          10 * maxCount (codePhrases transcript) > (codePhrases transcript).length) := by
  unfold validate_transcript_quality
  dsimp only
  rw [if_neg h1, if_neg h2]
  cases hmc : mostCommon1 (codePhrases transcript) with
  | none =>
    have hnil : codePhrases transcript = [] := (mostCommon1_eq_none _).mp hmc
    simp [hnil]
  | some pc =>
    obtain ⟨ph0, cnt0⟩ := pc
    have hcnt := mostCommon1_snd _ _ _ hmc
    have hne : codePhrases transcript ≠ [] := by
      intro hnil
      rw [(mostCommon1_eq_none _).mpr hnil] at hmc
      cases hmc
    by_cases hgt : 10 * cnt0 > (codePhrases transcript).length
    · simp [hgt, hne, ← hcnt]
    · simp [hgt, hne, ← hcnt]

set_option maxRecDepth 200000 in
/-- Witness for the amended C4 at `cexTranscript` (which satisfies both
hypotheses): both sides of the equivalence hold there. -/
theorem claim_C4_witness :
    (∃ ph cnt, validate_transcript_quality cexTranscript "t"
        = some (.excessiveRepetition ph cnt))
      ↔ (codePhrases cexTranscript ≠ [] ∧
          10 * maxCount (codePhrases cexTranscript)
            > (codePhrases cexTranscript).length) := by
  exact claim_C4 cexTranscript "t" (by decide) (by decide)

end ObsidianAITools
